import Mathlib

/-!
Shallow embedding of `src/handler.py` (airlines-seat-reservation): a request
router over a DynamoDB-backed seat-reservation table, with three handlers
(`get_seats`, `reserve_seat`, `cancel_seat`).

Modelling conventions:
* A DynamoDB item is `Item`: its key attribute `seatId` and an optional
  `reservedBy` attribute (`none` models a record missing the attribute, the
  "malformed record" case the code's scan loop trips over with a KeyError).
* The table is a `List Item` in scan order; the handlers never rely on the
  order except that the Python dict built in `get_seats` preserves it.
* `json.dumps` is modelled by `dumpsDict` / `jsonMsg`; escaping of special
  characters inside strings is elided, as every string value appearing in the
  development is escape-free.
* Each store call can also fail for an external reason (network, throttling);
  the `fault : Bool` parameter models that "any other exception" path.
* The top-level try/except of `handle_request` is modelled by `dispatch`
  returning `Except`: parse failures of the request body (absent body or
  invalid JSON, where `json.loads` raises) are the errors no handler catches.
-/

/-- A stored DynamoDB item: key attribute `seatId`, and the `reservedBy`
attribute, which a malformed record may lack (`none`). -/
structure Item where
  seatId : String
  reservedBy : Option String
deriving DecidableEq

/-- The parsed JSON request body: `data.get('seatId')` / `data.get('userId')`
return `None` when the key is absent. -/
structure ReqData where
  seatId : Option String
  userId : Option String
deriving DecidableEq

/-- An HTTP response: status code and JSON-serialized body string. -/
structure Response where
  statusCode : Nat
  body : String
deriving DecidableEq

/-- The state of the request body before parsing: either `json.loads`
succeeds and yields a dict (`parsed`), or the body is absent or not valid
JSON and `json.loads` raises (`malformed`, carrying the raw body text). -/
inductive BodyState where
  | parsed (d : ReqData)
  | malformed (raw : String)
deriving DecidableEq

/-- An API Gateway event: `event.get('httpMethod')`, `event.get('path')`
(each `None` when absent) and the request body. -/
structure Event where
  httpMethod : Option String
  path : Option String
  body : BodyState
deriving DecidableEq

/-- Python truthiness of an optional string: `not x` is true exactly when
`x` is `None` or the empty string. -/
def truthy : Option String → Bool
  | none => false
  | some s => s != ""

/-- `json.dumps` of a one-field message object. -/
def jsonMsg (m : String) : String :=
  "\x7b\"message\": \"" ++ m ++ "\"\x7d"

/-- Python `sep.join` of a list of strings. -/
def joinSep (sep : String) : List String → String
  | [] => ""
  | [x] => x
  | x :: xs => x ++ sep ++ joinSep sep xs

/-- `json.dumps` of the seats dict (insertion-ordered association list of
`seat_id` to `reserved_by`). -/
def dumpsDict (d : List (String × String)) : String :=
  "\x7b" ++
    joinSep ", " (d.map (fun p =>
      "\"" ++ p.1 ++ "\": \x7b\"reserved_by\": \"" ++ p.2 ++ "\"\x7d")) ++
    "\x7d"

/-- Look up the item with the given key, as DynamoDB does for a key-ed
operation. -/
def findItem (store : List Item) (sid : String) : Option Item :=
  store.find? (fun it => it.seatId == sid)

/-- `put_item` with `ConditionExpression='attribute_not_exists(seatId)'`:
succeeds (returning the new table contents) only when no item has the key,
otherwise raises ConditionalCheckFailedException (`none`). -/
def putItemCond (store : List Item) (sid uid : String) : Option (List Item) :=
  match findItem store sid with
  | some _ => none
  | none => some (store ++ [⟨sid, some uid⟩])

/-- `delete_item` with `ConditionExpression='reservedBy = :reservedBy'`:
succeeds only when an item with the key exists and its `reservedBy` equals
the supplied value; a missing item also fails the condition. -/
def deleteItemCond (store : List Item) (sid uid : String) :
    Option (List Item) :=
  match findItem store sid with
  | some it =>
      if it.reservedBy == some uid then
        some (store.filter (fun x => x.seatId != sid))
      else none
  | none => none

/-- Python dict assignment `d[k] = v`: updates the value in place when the
key exists (keeping its position), otherwise appends. -/
def dictInsert (d : List (String × String)) (k v : String) :
    List (String × String) :=
  if d.any (fun p => p.1 == k) then
    d.map (fun p => if p.1 == k then (k, v) else p)
  else d ++ [(k, v)]

/-- The loop of `get_seats` building the `seats` dict from the scanned
items; `none` models the KeyError raised on an item missing `reservedBy`. -/
def buildSeats : List Item → List (String × String) →
    Option (List (String × String))
  | [], acc => some acc
  | it :: rest, acc =>
      match it.reservedBy with
      | some rb => buildSeats rest (dictInsert acc it.seatId rb)
      | none => none

/-- `get_seats`: scan the table, build the seats dict, 200 with its dump;
any failure (scan fault or malformed record) yields 500. The scan never
changes the table. -/
def get_seats (fault : Bool) (store : List Item) : Response × List Item :=
  (if fault then ⟨500, jsonMsg "Failed to retrieve seats."⟩
   else
     match buildSeats store [] with
     | some seats => ⟨200, dumpsDict seats⟩
     | none => ⟨500, jsonMsg "Failed to retrieve seats."⟩,
   store)

/-- `reserve_seat`: validate truthiness of both fields, then conditional
put; 200 on success, 409 on condition failure, 500 on any other store
fault. -/
def reserve_seat (fault : Bool) (data : ReqData) (store : List Item) :
    Response × List Item :=
  if !truthy data.seatId || !truthy data.userId then
    (⟨400, jsonMsg "Seat ID and User ID are required."⟩, store)
  else if fault then
    (⟨500, jsonMsg "An error occurred during reservation."⟩, store)
  else
    match putItemCond store (data.seatId.getD "") (data.userId.getD "") with
    | some store2 =>
        (⟨200, jsonMsg
            ("Seat " ++ data.seatId.getD "" ++ " reserved successfully.")⟩,
         store2)
    | none =>
        (⟨409, jsonMsg
            ("Seat " ++ data.seatId.getD "" ++ " is already reserved.")⟩,
         store)

/-- `cancel_seat`: validate truthiness of both fields, then conditional
delete; 200 on success, 400 on condition failure (no record or not the
owner), 500 on any other store fault. -/
def cancel_seat (fault : Bool) (data : ReqData) (store : List Item) :
    Response × List Item :=
  if !truthy data.seatId || !truthy data.userId then
    (⟨400, jsonMsg "Seat ID and User ID are required."⟩, store)
  else if fault then
    (⟨500, jsonMsg "An error occurred while canceling."⟩, store)
  else
    match deleteItemCond store (data.seatId.getD "") (data.userId.getD "") with
    | some store2 =>
        (⟨200, jsonMsg
            ("Reservation for seat " ++ data.seatId.getD "" ++ " canceled.")⟩,
         store2)
    | none =>
        (⟨400, jsonMsg
            "You cannot cancel this reservation as it does not belong to you."⟩,
         store)

/-- The routing body of `handle_request`, inside its try block. The only
exceptions no handler catches are those `json.loads` raises on the POST
routes, carried as `Except.error` with the raw body text. -/
def dispatch (fault : Bool) (ev : Event) (store : List Item) :
    Except String (Response × List Item) :=
  if ev.httpMethod = some "GET" ∧ ev.path = some "/seats" then
    Except.ok (get_seats fault store)
  else if ev.httpMethod = some "POST" ∧ ev.path = some "/reserve" then
    match ev.body with
    | BodyState.parsed d => Except.ok (reserve_seat fault d store)
    | BodyState.malformed raw => Except.error ("JSON parse failure: " ++ raw)
  else if ev.httpMethod = some "POST" ∧ ev.path = some "/cancel" then
    match ev.body with
    | BodyState.parsed d => Except.ok (cancel_seat fault d store)
    | BodyState.malformed raw => Except.error ("JSON parse failure: " ++ raw)
  else
    Except.ok (⟨404, jsonMsg "Not Found"⟩, store)

/-- `handle_request`: the try/except wrapper around `dispatch`; any
uncaught exception becomes a constant 500 response and is not re-raised. -/
def handle_request (fault : Bool) (ev : Event) (store : List Item) :
    Response × List Item :=
  match dispatch fault ev store with
  | Except.ok r => r
  | Except.error _ => (⟨500, jsonMsg "An internal error occurred."⟩, store)

/-- The store invariant: item keys are pairwise distinct, so each `seat_id`
maps to at most one `reserved_by`. -/
def KeysNodup (store : List Item) : Prop :=
  (store.map Item.seatId).Nodup

instance (store : List Item) : Decidable (KeysNodup store) :=
  List.nodupDecidable _

/-! ### Helper lemmas about the store primitives -/

lemma findItem_eq_none_iff (store : List Item) (sid : String) :
    findItem store sid = none ↔ ∀ it ∈ store, it.seatId ≠ sid := by
  simp [findItem, List.find?_eq_none]

lemma findItem_append_of_none (store l2 : List Item) (sid : String)
    (h : findItem store sid = none) :
    findItem (store ++ l2) sid = findItem l2 sid := by
  unfold findItem at h ⊢
  rw [List.find?_append, h, Option.none_or]

lemma filter_ne_of_absent (store : List Item) (sid : String)
    (h : findItem store sid = none) :
    store.filter (fun x => x.seatId != sid) = store := by
  rw [List.filter_eq_self]
  intro it hit
  have := (findItem_eq_none_iff store sid).1 h it hit
  simpa [bne_iff_ne] using this

lemma keysNodup_append (store : List Item) (sid uid : String)
    (h : KeysNodup store) (hnone : findItem store sid = none) :
    KeysNodup (store ++ [⟨sid, some uid⟩]) := by
  unfold KeysNodup at h ⊢
  rw [List.map_append, List.nodup_append]
  refine ⟨h, List.nodup_singleton _, ?_⟩
  intro k hk hk2
  rcases List.mem_map.1 hk with ⟨it, hit, rfl⟩
  have := (findItem_eq_none_iff store sid).1 hnone it hit
  simp at hk2
  exact this hk2

lemma keysNodup_filter (store : List Item) (p : Item → Bool)
    (h : KeysNodup store) : KeysNodup (store.filter p) := by
  unfold KeysNodup at h ⊢
  exact h.sublist ((List.filter_sublist store).map Item.seatId)

/-! ### Helper lemmas about the seats-dict construction -/

lemma dictInsert_of_not_mem (d : List (String × String)) (k v : String)
    (h : k ∉ d.map Prod.fst) : dictInsert d k v = d ++ [(k, v)] := by
  have hany : d.any (fun p => p.1 == k) = false := by
    rw [List.any_eq_false]
    intro p hp
    simp only [beq_iff_eq]
    intro hpk
    exact h (List.mem_map.2 ⟨p, hp, hpk⟩)
  simp [dictInsert, hany]

lemma dictInsert_keys_subset (d : List (String × String)) (k v k2 : String)
    (h : k2 ∈ (dictInsert d k v).map Prod.fst) :
    k2 ∈ d.map Prod.fst ∨ k2 = k := by
  unfold dictInsert at h
  split at h
  · rcases List.mem_map.1 h with ⟨q, hq, rfl⟩
    rcases List.mem_map.1 hq with ⟨p, hp, rfl⟩
    by_cases hpk : p.1 = k
    · simp [hpk]
    · left
      simp only [beq_iff_eq, hpk, if_false]
      exact List.mem_map.2 ⟨p, hp, rfl⟩
  · rw [List.map_append] at h
    rcases List.mem_append.1 h with h2 | h2
    · exact Or.inl h2
    · right; simpa using h2

lemma buildSeats_append (l1 l2 : List Item) (acc : List (String × String)) :
    buildSeats (l1 ++ l2) acc = (buildSeats l1 acc).bind (buildSeats l2) := by
  induction l1 generalizing acc with
  | nil => simp [buildSeats]
  | cons it rest ih =>
      cases h : it.reservedBy with
      | some rb => simp [buildSeats, h, ih]
      | none => simp [buildSeats, h]

lemma buildSeats_exists_keys (l : List Item)
    (hwf : ∀ it ∈ l, it.reservedBy.isSome) :
    ∀ acc, ∃ d, buildSeats l acc = some d ∧
      ∀ k, k ∈ d.map Prod.fst →
        k ∈ acc.map Prod.fst ∨ k ∈ l.map Item.seatId := by
  induction l with
  | nil => exact fun acc => ⟨acc, rfl, fun k hk => Or.inl hk⟩
  | cons it rest ih =>
      intro acc
      rcases Option.isSome_iff_exists.1 (hwf it (by simp)) with ⟨rb, hrb⟩
      have hwf2 : ∀ x ∈ rest, x.reservedBy.isSome :=
        fun x hx => hwf x (by simp [hx])
      rcases ih hwf2 (dictInsert acc it.seatId rb) with ⟨d, hd, hkeys⟩
      refine ⟨d, by simp [buildSeats, hrb, hd], ?_⟩
      intro k hk
      rcases hkeys k hk with h | h
      · rcases dictInsert_keys_subset _ _ _ _ h with h2 | h2
        · exact Or.inl h2
        · exact Or.inr (by simp [h2])
      · exact Or.inr (by simp [h])

lemma buildSeats_wf_nodup (l : List Item) :
    (∀ it ∈ l, it.reservedBy.isSome) → (l.map Item.seatId).Nodup →
    ∀ acc, (∀ k ∈ acc.map Prod.fst, k ∉ l.map Item.seatId) →
    buildSeats l acc =
      some (acc ++ l.map (fun it => (it.seatId, it.reservedBy.getD ""))) := by
  induction l with
  | nil => intro _ _ acc _; simp [buildSeats]
  | cons it rest ih =>
      intro hwf hnd acc hdisj
      rcases Option.isSome_iff_exists.1 (hwf it (by simp)) with ⟨rb, hrb⟩
      have hnd2 : (rest.map Item.seatId).Nodup := (List.nodup_cons.1 hnd).2
      have hhd : it.seatId ∉ rest.map Item.seatId := (List.nodup_cons.1 hnd).1
      have hknotin : it.seatId ∉ acc.map Prod.fst := by
        intro hmem
        exact hdisj it.seatId hmem (by simp)
      have step : buildSeats (it :: rest) acc =
          buildSeats rest (dictInsert acc it.seatId rb) := by
        simp [buildSeats, hrb]
      rw [step, dictInsert_of_not_mem _ _ _ hknotin,
        ih (fun x hx => hwf x (by simp [hx])) hnd2 _ ?_]
      · simp [hrb]
      · intro k hk hk2
        rw [List.map_append] at hk
        rcases List.mem_append.1 hk with h2 | h2
        · exact hdisj k h2 (by simp [hk2])
        · simp at h2
          rw [h2] at hk2
          exact hhd hk2

lemma buildSeats_malformed (l : List Item)
    (h : ∃ it ∈ l, it.reservedBy = none) :
    ∀ acc, buildSeats l acc = none := by
  induction l with
  | nil => simp at h
  | cons it rest ih =>
      intro acc
      rcases h with ⟨it2, hmem, hnone⟩
      rcases List.mem_cons.1 hmem with rfl | hmem2
      · simp [buildSeats, hnone]
      · cases hrb : it.reservedBy with
        | none => simp [buildSeats, hrb]
        | some rb =>
            simp only [buildSeats, hrb]
            exact ih ⟨it2, hmem2, hnone⟩ _

lemma joinSep_concat (sep : String) (l : List String) (x : String) :
    ∃ pre, joinSep sep (l ++ [x]) = pre ++ x := by
  induction l with
  | nil => exact ⟨"", by simp [joinSep]⟩
  | cons a t ih =>
      rcases ih with ⟨pre, hpre⟩
      cases t with
      | nil => exact ⟨a ++ sep, by simp [joinSep]⟩
      | cons b t2 =>
          refine ⟨a ++ sep ++ pre, ?_⟩
          have step : joinSep sep ((a :: b :: t2) ++ [x]) =
              a ++ sep ++ joinSep sep ((b :: t2) ++ [x]) := rfl
          rw [step, hpre]
          simp [String.append_assoc]

/-! ### Case analyses of the handlers -/

lemma reserve_seat_cases (fault : Bool) (data : ReqData) (store : List Item) :
    (reserve_seat fault data store).2 = store ∨
    ∃ sid uid, data.seatId = some sid ∧ data.userId = some uid ∧
      findItem store sid = none ∧
      reserve_seat fault data store =
        (⟨200, jsonMsg ("Seat " ++ sid ++ " reserved successfully.")⟩,
         store ++ [⟨sid, some uid⟩]) := by
  cases hds : data.seatId with
  | none => exact Or.inl (by simp [reserve_seat, truthy, hds])
  | some sid =>
    cases hdu : data.userId with
    | none => exact Or.inl (by simp [reserve_seat, truthy, hds, hdu])
    | some uid =>
      by_cases hse : sid = ""
      · exact Or.inl (by simp [reserve_seat, truthy, hds, hdu, hse])
      · by_cases hue : uid = ""
        · exact Or.inl (by simp [reserve_seat, truthy, hds, hdu, hse, hue])
        · cases fault with
          | true =>
              exact Or.inl
                (by simp [reserve_seat, truthy, hds, hdu, hse, hue])
          | false =>
              cases hfind : findItem store sid with
              | some it =>
                  exact Or.inl (by
                    simp [reserve_seat, truthy, hds, hdu, hse, hue,
                      putItemCond, hfind])
              | none =>
                  exact Or.inr ⟨sid, uid, rfl, rfl, hfind, by
                    simp [reserve_seat, truthy, hds, hdu, hse, hue,
                      putItemCond, hfind]⟩

lemma cancel_seat_cases (fault : Bool) (data : ReqData) (store : List Item) :
    (cancel_seat fault data store).2 = store ∨
    ∃ sid uid it, data.seatId = some sid ∧ data.userId = some uid ∧
      findItem store sid = some it ∧ it.reservedBy = some uid ∧
      cancel_seat fault data store =
        (⟨200, jsonMsg ("Reservation for seat " ++ sid ++ " canceled.")⟩,
         store.filter (fun x => x.seatId != sid)) := by
  cases hds : data.seatId with
  | none => exact Or.inl (by simp [cancel_seat, truthy, hds])
  | some sid =>
    cases hdu : data.userId with
    | none => exact Or.inl (by simp [cancel_seat, truthy, hds, hdu])
    | some uid =>
      by_cases hse : sid = ""
      · exact Or.inl (by simp [cancel_seat, truthy, hds, hdu, hse])
      · by_cases hue : uid = ""
        · exact Or.inl (by simp [cancel_seat, truthy, hds, hdu, hse, hue])
        · cases fault with
          | true =>
              exact Or.inl
                (by simp [cancel_seat, truthy, hds, hdu, hse, hue])
          | false =>
              cases hfind : findItem store sid with
              | none =>
                  exact Or.inl (by
                    simp [cancel_seat, truthy, hds, hdu, hse, hue,
                      deleteItemCond, hfind])
              | some it =>
                  by_cases hrb : it.reservedBy = some uid
                  · exact Or.inr ⟨sid, uid, it, rfl, rfl, hfind, hrb, by
                      simp [cancel_seat, truthy, hds, hdu, hse, hue,
                        deleteItemCond, hfind, hrb]⟩
                  · exact Or.inl (by
                      simp [cancel_seat, truthy, hds, hdu, hse, hue,
                        deleteItemCond, hfind, hrb])

lemma handle_request_cases (fault : Bool) (ev : Event) (store : List Item) :
    (handle_request fault ev store).2 = store ∨
    ((ev.httpMethod = some "POST" ∧ ev.path = some "/reserve") ∧
      ∃ data sid uid, ev.body = BodyState.parsed data ∧
        data.seatId = some sid ∧ data.userId = some uid ∧
        findItem store sid = none ∧
        handle_request fault ev store =
          (⟨200, jsonMsg ("Seat " ++ sid ++ " reserved successfully.")⟩,
           store ++ [⟨sid, some uid⟩])) ∨
    ((ev.httpMethod = some "POST" ∧ ev.path = some "/cancel") ∧
      ∃ data sid uid it, ev.body = BodyState.parsed data ∧
        data.seatId = some sid ∧ data.userId = some uid ∧
        findItem store sid = some it ∧ it.reservedBy = some uid ∧
        handle_request fault ev store =
          (⟨200, jsonMsg ("Reservation for seat " ++ sid ++ " canceled.")⟩,
           store.filter (fun x => x.seatId != sid))) := by
  unfold handle_request dispatch
  by_cases h1 : ev.httpMethod = some "GET" ∧ ev.path = some "/seats"
  · rw [if_pos h1]
    exact Or.inl rfl
  · rw [if_neg h1]
    by_cases h2 : ev.httpMethod = some "POST" ∧ ev.path = some "/reserve"
    · rw [if_pos h2]
      cases hb : ev.body with
      | malformed raw => exact Or.inl rfl
      | parsed d =>
          rcases reserve_seat_cases fault d store with
            h | ⟨sid, uid, hds, hdu, hf, heq⟩
          · exact Or.inl h
          · exact Or.inr (Or.inl ⟨h2, d, sid, uid, rfl, hds, hdu, hf, heq⟩)
    · rw [if_neg h2]
      by_cases h3 : ev.httpMethod = some "POST" ∧ ev.path = some "/cancel"
      · rw [if_pos h3]
        cases hb : ev.body with
        | malformed raw => exact Or.inl rfl
        | parsed d =>
            rcases cancel_seat_cases fault d store with
              h | ⟨sid, uid, it, hds, hdu, hf, hrb, heq⟩
            · exact Or.inl h
            · exact Or.inr (Or.inr
                ⟨h3, d, sid, uid, it, rfl, hds, hdu, hf, hrb, heq⟩)
      · rw [if_neg h3]
        exact Or.inl rfl

/-! ### Claim theorems -/

/-- Claim C1: for a reserve request with non-empty `seatId` and `userId`,
when the store holds no record for the seat, `reserve_seat` inserts the
record and returns 200 with the success message; when a record already
exists it returns 409 with the already-reserved message and leaves the
store unchanged. -/
theorem reserve_seat_contract (store : List Item) (sid uid : String)
    (hs : sid ≠ "") (hu : uid ≠ "") :
    (findItem store sid = none →
      reserve_seat false ⟨some sid, some uid⟩ store =
        (⟨200, jsonMsg ("Seat " ++ sid ++ " reserved successfully.")⟩,
         store ++ [⟨sid, some uid⟩])) ∧
    (∀ it, findItem store sid = some it →
      reserve_seat false ⟨some sid, some uid⟩ store =
        (⟨409, jsonMsg ("Seat " ++ sid ++ " is already reserved.")⟩,
         store)) := by
  constructor
  · intro hnone
    simp [reserve_seat, truthy, hs, hu, putItemCond, hnone]
  · intro it hsome
    simp [reserve_seat, truthy, hs, hu, putItemCond, hsome]

/-- Witness for C1 at a concrete input. -/
theorem reserve_seat_contract_witness :
    reserve_seat false ⟨some "A1", some "u1"⟩ [] =
      (⟨200, jsonMsg ("Seat " ++ "A1" ++ " reserved successfully.")⟩,
       [] ++ [⟨"A1", some "u1"⟩]) :=
  (reserve_seat_contract [] "A1" "u1" (by decide) (by decide)).1 rfl

/-- Claim C2: for a cancel request with non-empty `seatId` and `userId`,
`cancel_seat` returns 200 (deleting the record) exactly when the store
holds a record for the seat whose `reservedBy` equals the supplied user;
otherwise it returns 400 with the ownership message and leaves the store
unchanged. -/
theorem cancel_seat_contract (store : List Item) (sid uid : String)
    (hs : sid ≠ "") (hu : uid ≠ "") :
    ((cancel_seat false ⟨some sid, some uid⟩ store).1.statusCode = 200 ↔
      ∃ it, findItem store sid = some it ∧ it.reservedBy = some uid) ∧
    (∀ it, findItem store sid = some it → it.reservedBy = some uid →
      cancel_seat false ⟨some sid, some uid⟩ store =
        (⟨200, jsonMsg ("Reservation for seat " ++ sid ++ " canceled.")⟩,
         store.filter (fun x => x.seatId != sid))) ∧
    ((∀ it, findItem store sid = some it → it.reservedBy ≠ some uid) →
      cancel_seat false ⟨some sid, some uid⟩ store =
        (⟨400, jsonMsg
            "You cannot cancel this reservation as it does not belong to you."⟩,
         store)) := by
  refine ⟨?_, ?_, ?_⟩
  · cases hfind : findItem store sid with
    | none => simp [cancel_seat, truthy, hs, hu, deleteItemCond, hfind]
    | some it =>
        by_cases hrb : it.reservedBy = some uid
        · simp [cancel_seat, truthy, hs, hu, deleteItemCond, hfind, hrb]
        · simp [cancel_seat, truthy, hs, hu, deleteItemCond, hfind, hrb]
  · intro it hfind hrb
    simp [cancel_seat, truthy, hs, hu, deleteItemCond, hfind, hrb]
  · intro hnot
    cases hfind : findItem store sid with
    | none => simp [cancel_seat, truthy, hs, hu, deleteItemCond, hfind]
    | some it =>
        have hrb := hnot it hfind
        simp [cancel_seat, truthy, hs, hu, deleteItemCond, hfind, hrb]

/-- Witness for C2 at a concrete input. -/
theorem cancel_seat_contract_witness :
    cancel_seat false ⟨some "A1", some "u1"⟩ [⟨"A1", some "u1"⟩] =
      (⟨200, jsonMsg ("Reservation for seat " ++ "A1" ++ " canceled.")⟩,
       [⟨"A1", some "u1"⟩].filter (fun x => x.seatId != "A1")) :=
  (cancel_seat_contract [⟨"A1", some "u1"⟩] "A1" "u1"
    (by decide) (by decide)).2.1 ⟨"A1", some "u1"⟩ rfl rfl

/-- Claim C6: a reserve or cancel request whose body lacks the `seatId`
field or the `userId` field is rejected with 400 and the required-fields
message, and the store is not touched (for any store fault state). -/
theorem missing_fields_rejected (fault : Bool) (data : ReqData)
    (store : List Item) (h : data.seatId = none ∨ data.userId = none) :
    reserve_seat fault data store =
      (⟨400, jsonMsg "Seat ID and User ID are required."⟩, store) ∧
    cancel_seat fault data store =
      (⟨400, jsonMsg "Seat ID and User ID are required."⟩, store) := by
  rcases h with h | h <;>
    constructor <;>
    simp [reserve_seat, cancel_seat, truthy, h]

/-- Witness for C6 at a concrete input. -/
theorem missing_fields_rejected_witness :
    reserve_seat false ⟨none, some "u1"⟩ [] =
      (⟨400, jsonMsg "Seat ID and User ID are required."⟩, []) ∧
    cancel_seat false ⟨none, some "u1"⟩ [] =
      (⟨400, jsonMsg "Seat ID and User ID are required."⟩, []) :=
  missing_fields_rejected false ⟨none, some "u1"⟩ [] (Or.inl rfl)

/-- Claim C9 (implicit): a reserve or cancel request whose `seatId` or
`userId` is present but the empty string is treated like a missing field,
because the validation tests Python truthiness: 400 with the
required-fields message and the store untouched. -/
theorem empty_fields_rejected (fault : Bool) (data : ReqData)
    (store : List Item)
    (h : data.seatId = some "" ∨ data.userId = some "") :
    reserve_seat fault data store =
      (⟨400, jsonMsg "Seat ID and User ID are required."⟩, store) ∧
    cancel_seat fault data store =
      (⟨400, jsonMsg "Seat ID and User ID are required."⟩, store) := by
  rcases h with h | h <;>
    constructor <;>
    simp [reserve_seat, cancel_seat, truthy, h]

/-- Witness for C9 at a concrete input. -/
theorem empty_fields_rejected_witness :
    reserve_seat false ⟨some "", some "u1"⟩ [] =
      (⟨400, jsonMsg "Seat ID and User ID are required."⟩, []) ∧
    cancel_seat false ⟨some "", some "u1"⟩ [] =
      (⟨400, jsonMsg "Seat ID and User ID are required."⟩, []) :=
  empty_fields_rejected false ⟨some "", some "u1"⟩ [] (Or.inl rfl)

/-- Claim C7: any request whose (method, path) pair is not (GET, /seats),
(POST, /reserve) or (POST, /cancel) yields 404 with body
\x7b"message": "Not Found"\x7d and the store is not touched. -/
theorem unmatched_route_not_found (fault : Bool) (ev : Event)
    (store : List Item)
    (h1 : ¬(ev.httpMethod = some "GET" ∧ ev.path = some "/seats"))
    (h2 : ¬(ev.httpMethod = some "POST" ∧ ev.path = some "/reserve"))
    (h3 : ¬(ev.httpMethod = some "POST" ∧ ev.path = some "/cancel")) :
    handle_request fault ev store = (⟨404, jsonMsg "Not Found"⟩, store) := by
  unfold handle_request dispatch
  rw [if_neg h1, if_neg h2, if_neg h3]

/-- Witness for C7 at a concrete input. -/
theorem unmatched_route_not_found_witness :
    handle_request false ⟨some "DELETE", some "/seats", BodyState.parsed ⟨none, none⟩⟩ [] =
      (⟨404, jsonMsg "Not Found"⟩, []) :=
  unmatched_route_not_found false
    ⟨some "DELETE", some "/seats", BodyState.parsed ⟨none, none⟩⟩ []
    (by simp) (by simp) (by simp)

/-- Claim C8: whenever the dispatch body raises an exception no handler
catches (an `Except.error` of `dispatch`), `handle_request` returns 500
with the constant body \x7b"message": "An internal error occurred."\x7d —
a response independent of the exception text `e`, so no exception detail
reaches the response body — and the store is unchanged. -/
theorem uncaught_failure_internal_error (fault : Bool) (ev : Event)
    (store : List Item) (e : String)
    (h : dispatch fault ev store = Except.error e) :
    handle_request fault ev store =
      (⟨500, jsonMsg "An internal error occurred."⟩, store) := by
  unfold handle_request
  rw [h]

/-- Witness for C8 at a concrete input. -/
theorem uncaught_failure_internal_error_witness :
    handle_request false
        ⟨some "POST", some "/reserve", BodyState.malformed "\x7bbad"⟩ [] =
      (⟨500, jsonMsg "An internal error occurred."⟩, []) :=
  uncaught_failure_internal_error false
    ⟨some "POST", some "/reserve", BodyState.malformed "\x7bbad"⟩ []
    ("JSON parse failure: " ++ "\x7bbad") rfl

/-- Claim C10 (implicit): a POST /reserve or POST /cancel request whose
body is absent or not valid JSON makes `json.loads` raise, which falls
through to the top-level catch-all: 500 with
\x7b"message": "An internal error occurred."\x7d, not a 400 validation
response, and the store is unchanged. -/
theorem malformed_body_internal_error (fault : Bool) (store : List Item)
    (raw m p : String) (hm : m = "POST")
    (hp : p = "/reserve" ∨ p = "/cancel") :
    handle_request fault ⟨some m, some p, BodyState.malformed raw⟩ store =
      (⟨500, jsonMsg "An internal error occurred."⟩, store) := by
  subst hm
  rcases hp with hp | hp <;> subst hp <;>
    simp [handle_request, dispatch]

/-- Witness for C10 at a concrete input. -/
theorem malformed_body_internal_error_witness :
    handle_request false ⟨some "POST", some "/cancel", BodyState.malformed ""⟩ [] =
      (⟨500, jsonMsg "An internal error occurred."⟩, []) :=
  malformed_body_internal_error false [] "" "POST" "/cancel" rfl (Or.inr rfl)

/-- Claim C3: every operation preserves the invariant that each `seat_id`
maps to at most one `reserved_by`; the store changes only by a successful
(200) reserve appending the record built from the request's own `seatId`
and `userId` on a previously absent key, or by a successful (200) cancel
removing the record whose stored `reservedBy` equals the `userId` supplied
in the request's body; and every record of the new store either was
already present unchanged or is under a fresh key, so no operation
rewrites the `reservedBy` of an existing record in place. -/
theorem handle_request_store_invariant (fault : Bool) (ev : Event)
    (store : List Item) (h : KeysNodup store) :
    KeysNodup (handle_request fault ev store).2 ∧
    ((handle_request fault ev store).2 = store ∨
      (∃ data sid uid, ev.body = BodyState.parsed data ∧
        data.seatId = some sid ∧ data.userId = some uid ∧
        findItem store sid = none ∧
        (handle_request fault ev store).2 = store ++ [⟨sid, some uid⟩] ∧
        (handle_request fault ev store).1.statusCode = 200 ∧
        ev.httpMethod = some "POST" ∧ ev.path = some "/reserve") ∨
      (∃ data sid uid it, ev.body = BodyState.parsed data ∧
        data.seatId = some sid ∧ data.userId = some uid ∧
        findItem store sid = some it ∧ it.reservedBy = some uid ∧
        (handle_request fault ev store).2 =
          store.filter (fun x => x.seatId != sid) ∧
        (handle_request fault ev store).1.statusCode = 200 ∧
        ev.httpMethod = some "POST" ∧ ev.path = some "/cancel")) ∧
    (∀ it2, it2 ∈ (handle_request fault ev store).2 →
      it2 ∈ store ∨ findItem store it2.seatId = none) := by
  rcases handle_request_cases fault ev store with
    hc | ⟨⟨hm, hp⟩, data, sid, uid, hb, hds, hdu, hf, heq⟩ |
    ⟨⟨hm, hp⟩, data, sid, uid, it, hb, hds, hdu, hf, hrb, heq⟩
  · refine ⟨by rw [hc]; exact h, Or.inl hc, ?_⟩
    intro it2 h2
    rw [hc] at h2
    exact Or.inl h2
  · have hst : (handle_request fault ev store).2 = store ++ [⟨sid, some uid⟩] := by
      rw [heq]
    refine ⟨?_, Or.inr (Or.inl
      ⟨data, sid, uid, hb, hds, hdu, hf, hst, by rw [heq], hm, hp⟩), ?_⟩
    · rw [hst]
      exact keysNodup_append store sid uid h hf
    · intro it2 h2
      rw [hst] at h2
      rcases List.mem_append.1 h2 with h3 | h3
      · exact Or.inl h3
      · right
        simp at h3
        rw [h3]
        exact hf
  · have hst : (handle_request fault ev store).2 =
        store.filter (fun x => x.seatId != sid) := by
      rw [heq]
    refine ⟨?_, Or.inr (Or.inr
      ⟨data, sid, uid, it, hb, hds, hdu, hf, hrb, hst,
        by rw [heq], hm, hp⟩), ?_⟩
    · rw [hst]
      exact keysNodup_filter store _ h
    · intro it2 h2
      rw [hst] at h2
      exact Or.inl (List.mem_of_mem_filter h2)

/-- Witness for C3 at a concrete input. -/
theorem handle_request_store_invariant_witness :
    KeysNodup (handle_request false
        ⟨some "POST", some "/reserve",
          BodyState.parsed ⟨some "A1", some "u1"⟩⟩ []).2 ∧
    ((handle_request false
        ⟨some "POST", some "/reserve",
          BodyState.parsed ⟨some "A1", some "u1"⟩⟩ []).2 = [] ∨
      (∃ data sid uid,
        BodyState.parsed ⟨some "A1", some "u1"⟩ = BodyState.parsed data ∧
        data.seatId = some sid ∧ data.userId = some uid ∧
        findItem [] sid = none ∧
        (handle_request false
          ⟨some "POST", some "/reserve",
            BodyState.parsed ⟨some "A1", some "u1"⟩⟩ []).2 =
          [] ++ [⟨sid, some uid⟩] ∧
        (handle_request false
          ⟨some "POST", some "/reserve",
            BodyState.parsed ⟨some "A1", some "u1"⟩⟩ []).1.statusCode = 200 ∧
        (some "POST" : Option String) = some "POST" ∧
        (some "/reserve" : Option String) = some "/reserve") ∨
      (∃ data sid uid it,
        BodyState.parsed ⟨some "A1", some "u1"⟩ = BodyState.parsed data ∧
        data.seatId = some sid ∧ data.userId = some uid ∧
        findItem [] sid = some it ∧
        it.reservedBy = some uid ∧
        (handle_request false
          ⟨some "POST", some "/reserve",
            BodyState.parsed ⟨some "A1", some "u1"⟩⟩ []).2 =
          List.filter (fun x => x.seatId != sid) [] ∧
        (handle_request false
          ⟨some "POST", some "/reserve",
            BodyState.parsed ⟨some "A1", some "u1"⟩⟩ []).1.statusCode = 200 ∧
        (some "POST" : Option String) = some "POST" ∧
        (some "/reserve" : Option String) = some "/cancel")) ∧
    (∀ it2, it2 ∈ (handle_request false
        ⟨some "POST", some "/reserve",
          BodyState.parsed ⟨some "A1", some "u1"⟩⟩ []).2 →
      it2 ∈ ([] : List Item) ∨ findItem [] it2.seatId = none) :=
  handle_request_store_invariant false
    ⟨some "POST", some "/reserve", BodyState.parsed ⟨some "A1", some "u1"⟩⟩
    [] (by decide)

/-- Claim C5: listing seats returns 200 with the JSON object mapping every
`seat_id` in the store to its stored `reserved_by` (in scan order), and
returns 500 with \x7b"message": "Failed to retrieve seats."\x7d when the
scan faults or some record lacks the `reservedBy` attribute. The store is
never modified. -/
theorem get_seats_contract (store : List Item) :
    (KeysNodup store → (∀ it ∈ store, it.reservedBy.isSome) →
      get_seats false store =
        (⟨200, dumpsDict (store.map
            (fun it => (it.seatId, it.reservedBy.getD "")))⟩, store)) ∧
    ((∃ it ∈ store, it.reservedBy = none) →
      get_seats false store =
        (⟨500, jsonMsg "Failed to retrieve seats."⟩, store)) ∧
    get_seats true store =
      (⟨500, jsonMsg "Failed to retrieve seats."⟩, store) := by
  refine ⟨?_, ?_, rfl⟩
  · intro hnd hwf
    have hb := buildSeats_wf_nodup store hwf hnd [] (by simp)
    simp only [List.nil_append] at hb
    simp [get_seats, hb]
  · intro hmal
    have hb := buildSeats_malformed store hmal []
    simp [get_seats, hb]

/-- Witness for C5 at a concrete input. -/
theorem get_seats_contract_witness :
    get_seats false [⟨"A1", some "u1"⟩] =
      (⟨200, dumpsDict (([(⟨"A1", some "u1"⟩ : Item)]).map
          (fun it => (it.seatId, it.reservedBy.getD "")))⟩,
       [⟨"A1", some "u1"⟩]) :=
  (get_seats_contract [⟨"A1", some "u1"⟩]).1 (by decide) (by decide)

/-- Claim C4: round-trip from any well-formed store state with no record
for seat A1: reserve(A1,u1) returns 200 and appends the record; GET /seats
then returns 200 with a body containing the entry
"A1": \x7b"reserved_by": "u1"\x7d; cancel(A1,u1) then returns 200 and
restores the original store; and a final GET /seats returns 200 with a
body whose dict no longer holds the key A1. -/
theorem reserve_list_cancel_roundtrip (store : List Item)
    (hfree : findItem store "A1" = none)
    (hwf : ∀ it ∈ store, it.reservedBy.isSome) :
    ∃ d0, buildSeats store [] = some d0 ∧
      reserve_seat false ⟨some "A1", some "u1"⟩ store =
        (⟨200, jsonMsg ("Seat " ++ "A1" ++ " reserved successfully.")⟩,
         store ++ [⟨"A1", some "u1"⟩]) ∧
      get_seats false (store ++ [⟨"A1", some "u1"⟩]) =
        (⟨200, dumpsDict (d0 ++ [("A1", "u1")])⟩,
         store ++ [⟨"A1", some "u1"⟩]) ∧
      ("A1", "u1") ∈ d0 ++ [("A1", "u1")] ∧
      (∃ pre post, dumpsDict (d0 ++ [("A1", "u1")]) =
        pre ++ "\"A1\": \x7b\"reserved_by\": \"u1\"\x7d" ++ post) ∧
      cancel_seat false ⟨some "A1", some "u1"⟩
          (store ++ [⟨"A1", some "u1"⟩]) =
        (⟨200, jsonMsg ("Reservation for seat " ++ "A1" ++ " canceled.")⟩,
         store) ∧
      get_seats false store = (⟨200, dumpsDict d0⟩, store) ∧
      (∀ v, ("A1", v) ∉ d0) := by
  rcases buildSeats_exists_keys store hwf [] with ⟨d0, hd0, hkeys⟩
  have hA1store : "A1" ∉ store.map Item.seatId := by
    intro hmem
    rcases List.mem_map.1 hmem with ⟨it, hit, hsid⟩
    exact (findItem_eq_none_iff store "A1").1 hfree it hit hsid
  have hA1d0 : "A1" ∉ d0.map Prod.fst := by
    intro hmem
    rcases hkeys "A1" hmem with h | h
    · simp at h
    · exact hA1store h
  have hfind1 : findItem (store ++ [⟨"A1", some "u1"⟩]) "A1" =
      some ⟨"A1", some "u1"⟩ := by
    rw [findItem_append_of_none store _ _ hfree]
    simp [findItem]
  have hfilt : (store ++ [(⟨"A1", some "u1"⟩ : Item)]).filter
      (fun x => x.seatId != "A1") = store := by
    rw [List.filter_append, filter_ne_of_absent store "A1" hfree]
    simp
  have hb1 : buildSeats (store ++ [⟨"A1", some "u1"⟩]) [] =
      some (d0 ++ [("A1", "u1")]) := by
    rw [buildSeats_append, hd0]
    show buildSeats [⟨"A1", some "u1"⟩] d0 = some (d0 ++ [("A1", "u1")])
    simp [buildSeats, dictInsert_of_not_mem d0 "A1" "u1" hA1d0]
  refine ⟨d0, hd0,
    (reserve_seat_contract store "A1" "u1" (by decide) (by decide)).1 hfree,
    by simp [get_seats, hb1],
    by simp,
    ?_,
    ?_,
    by simp [get_seats, hd0],
    ?_⟩
  · rcases joinSep_concat ", "
        (d0.map (fun p =>
          "\"" ++ p.1 ++ "\": \x7b\"reserved_by\": \"" ++ p.2 ++ "\"\x7d"))
        ("\"A1\": \x7b\"reserved_by\": \"u1\"\x7d") with ⟨pre, hpre⟩
    refine ⟨"\x7b" ++ pre, "\x7d", ?_⟩
    have hone : List.map (fun p =>
        "\"" ++ p.1 ++ "\": \x7b\"reserved_by\": \"" ++ p.2 ++ "\"\x7d")
        [("A1", "u1")] = ["\"A1\": \x7b\"reserved_by\": \"u1\"\x7d"] := rfl
    rw [dumpsDict, List.map_append, hone, hpre]
    simp [String.append_assoc]
  · have h200 := (cancel_seat_contract (store ++ [(⟨"A1", some "u1"⟩ : Item)])
      "A1" "u1" (by decide) (by decide)).2.1 (⟨"A1", some "u1"⟩ : Item)
      hfind1 rfl
    rw [h200, hfilt]
  · intro v hv
    exact hA1d0 (List.mem_map.2 ⟨("A1", v), hv, rfl⟩)

/-- Witness for C4 at a concrete input (the empty store). -/
theorem reserve_list_cancel_roundtrip_witness :
    ∃ d0, buildSeats [] [] = some d0 ∧
      reserve_seat false ⟨some "A1", some "u1"⟩ [] =
        (⟨200, jsonMsg ("Seat " ++ "A1" ++ " reserved successfully.")⟩,
         [] ++ [⟨"A1", some "u1"⟩]) ∧
      get_seats false ([] ++ [⟨"A1", some "u1"⟩]) =
        (⟨200, dumpsDict (d0 ++ [("A1", "u1")])⟩,
         [] ++ [⟨"A1", some "u1"⟩]) ∧
      ("A1", "u1") ∈ d0 ++ [("A1", "u1")] ∧
      (∃ pre post, dumpsDict (d0 ++ [("A1", "u1")]) =
        pre ++ "\"A1\": \x7b\"reserved_by\": \"u1\"\x7d" ++ post) ∧
      cancel_seat false ⟨some "A1", some "u1"⟩ ([] ++ [⟨"A1", some "u1"⟩]) =
        (⟨200, jsonMsg ("Reservation for seat " ++ "A1" ++ " canceled.")⟩,
         []) ∧
      get_seats false [] = (⟨200, dumpsDict d0⟩, []) ∧
      (∀ v, ("A1", v) ∉ d0) :=
  reserve_list_cancel_roundtrip [] rfl (by decide)

